import Mathlib

/-!
Verification of the `UserIdleService` idle-detection state machine
(`angular-simple-user-idle`).

The service is an RxJS-based state machine.  We give it a shallow
embedding as an explicit state type `ServiceState` together with a
step function `step` that reacts to the discrete events the RxJS
pipelines deliver serially (buffered windows from `bufferTime`, raw
activity events seen by `takeUntil`, 1-second `interval` ticks, and
the public API calls).  Each step returns the successor state and the
list of observable emissions it produces (`idleDetected$`, `timeout$`,
the value delivered to an `onTimeout()` subscriber, and the
`console.error` diagnostic).

RxJS semantics embedded faithfully:
* `bufferTime(ms)` windows are events `emptyWindow` / `activeWindow`;
  the activity pipeline's `filter(arr => !!arr.length)` and the idle
  pipeline's `filter(arr => !arr.length && !isIdleDetected)` are the
  conditions guarding the two reactions.
* `switchMap` keeps at most one inner countdown alive and cancels the
  previous inner observable before subscribing the new one.
* `finalize` on `runTimer`'s pipe runs on completion (via `takeUntil`)
  AND on unsubscription — in particular when `stopWatching()`
  unsubscribes `idleSubscription` while the countdown is live.
* a `Subject` with no observers drops its `next` values, so the
  `stopWatching` inside `onTimeout()`'s `tap` only runs when an
  `onTimeout()` subscriber is active (the `onTimeoutSub` flag).
-/

/-- Effective configuration (`UserIdleConfig` with both fields present,
as produced by the constructor's merge). -/
structure UserIdleConfig where
  timeout : Nat
  sensitivityMilliseconds : Nat
deriving DecidableEq, Repr

/-- Caller-supplied configuration: both fields optional
(`user-idle.config.ts`). -/
structure UserIdleConfigInput where
  timeout : Option Nat := none
  sensitivityMilliseconds : Option Nat := none
deriving DecidableEq, Repr

/-- `DEFAULT_CONFIG = { timeout: 300, sensitivityMilliseconds: 1500 }`. -/
def DEFAULT_CONFIG : UserIdleConfig :=
  { timeout := 300, sensitivityMilliseconds := 1500 }

/-- The spread merge `{ ...DEFAULT_CONFIG, ...config }` performed by the
constructor; the injected `config` may be absent (`@Optional()`). -/
def mergeConfig : Option UserIdleConfigInput → UserIdleConfig
  | none => DEFAULT_CONFIG
  | some c =>
    { timeout := c.timeout.getD DEFAULT_CONFIG.timeout,
      sensitivityMilliseconds :=
        c.sensitivityMilliseconds.getD DEFAULT_CONFIG.sensitivityMilliseconds }

/-- The observable held in `activityEvents$`: either
`DEFAULT_ACTIVITY_EVENTS$` or a custom source (identified by a tag). -/
inductive ActivitySource where
  | defaultEvents
  | custom (id : Nat)
deriving DecidableEq, Repr

/-- `UserIdleService.nowInSeconds() = Math.floor(Date.now() / 1000)`:
wall-clock milliseconds truncated to whole Unix seconds. -/
def nowInSeconds (nowMs : Nat) : Nat := nowMs / 1000

/-- The mutable fields of a `UserIdleService` instance together with the
liveness of its subscriptions.  `idleSubExists` models
`this.idleSubscription` being non-null, `idleSubOpen` models
`!this.idleSubscription.closed`; `countdownLive` models the inner
`runTimer` observable of the `switchMap` being subscribed. -/
structure ServiceState where
  config : UserIdleConfig
  activityEvents : Option ActivitySource
  lastActivity : Nat
  isIdleDetected : Bool
  idleSubExists : Bool
  idleSubOpen : Bool
  activitySubOpen : Bool
  countdownLive : Bool
deriving DecidableEq, Repr

/-- Observable emissions produced by a step: `idleDetected` is a value
on `idleDetected$` (the `onIdleStatusChanged()` stream), `timeoutSignal`
is `timeout$.next(true)`, `timeoutEmission` is the `true` value an
`onTimeout()` subscriber receives after the `filter`/`tap`/`map` chain,
and `errorLog` is the `console.error` diagnostic. -/
inductive Output where
  | idleDetected (b : Bool)
  | timeoutSignal
  | timeoutEmission
  | errorLog
deriving DecidableEq, Repr

/-- Events delivered serially by the event loop to the service's
pipelines, plus the public API calls. `emptyWindow` / `activeWindow` are
`bufferTime` windows with zero / at least one raw event (`activeWindow`
carries the wall-clock time in ms at which the window closes);
`rawActivity` is a single raw event as seen by the countdown's
`takeUntil`; `timerTick` is an `interval(1000)` tick. -/
inductive RxEvent where
  | emptyWindow
  | activeWindow (nowMs : Nat)
  | rawActivity
  | timerTick (nowMs : Nat)
  | startWatching
  | stopWatching
  | setCustomActivityEvents (src : Nat)
deriving DecidableEq, Repr

/-- `setIdleness(idleness)`: store the flag and emit it on
`idleDetected$`. -/
def setIdleness (idleness : Bool) (s : ServiceState) :
    ServiceState × List Output :=
  ({ s with isIdleDetected := idleness }, [Output.idleDetected idleness])

/-- Tearing down the live countdown (on `takeUntil` completion,
`switchMap` cancellation, or unsubscription): the inner observable's
`finalize(() => this.setIdleness(false))` runs. -/
def finalizeCountdown (s : ServiceState) : ServiceState × List Output :=
  setIdleness false { s with countdownLive := false }

/-- `this.idleSubscription.unsubscribe()`: a no-op on an already-closed
subscription; otherwise closes it, which tears down the inner countdown
(if live), running its `finalize`. -/
def unsubscribeIdle (s : ServiceState) : ServiceState × List Output :=
  if s.idleSubOpen then
    let s1 := { s with idleSubOpen := false }
    if s1.countdownLive then finalizeCountdown s1 else (s1, [])
  else (s, [])

/-- `stopWatching()`: unsubscribe `idleSubscription` if it exists, then
unsubscribe `activitySubscription` if it exists (no `finalize` is
attached to the activity pipeline, so that unsubscription emits
nothing). -/
def stopWatching (s : ServiceState) : ServiceState × List Output :=
  let r := if s.idleSubExists then unsubscribeIdle s else (s, [])
  ({ r.1 with activitySubOpen := false }, r.2)

/-- `startWatching()`: stop any existing session, install
`DEFAULT_ACTIVITY_EVENTS$` when no source is set, then subscribe the
activity-sampling and idle-detection pipelines. -/
def startWatching (s : ServiceState) : ServiceState × List Output :=
  let r := stopWatching s
  let s1 :=
    if r.1.activityEvents.isNone then
      { r.1 with activityEvents := some ActivitySource.defaultEvents }
    else r.1
  ({ s1 with activitySubOpen := true, idleSubExists := true,
             idleSubOpen := true }, r.2)

/-- `setCustomActivityEvents(customEvents)`: rejected with a logged
error while `idleSubscription` exists and is not closed; otherwise the
activity source is replaced. -/
def setCustomActivityEvents (src : Nat) (s : ServiceState) :
    ServiceState × List Output :=
  if s.idleSubExists && s.idleSubOpen then (s, [Output.errorLog])
  else ({ s with activityEvents := some (ActivitySource.custom src) }, [])

/-- A `bufferTime` window with zero events.  The activity pipeline's
`filter(arr => !!arr.length)` drops it.  The idle pipeline reacts when
subscribed and `!isIdleDetected`: `tap(setIdleness)` with `true`, then
`switchMap` cancels any previous inner countdown and subscribes a fresh
`runTimer`. -/
def emptyWindowStep (s : ServiceState) : ServiceState × List Output :=
  if s.idleSubOpen && !s.isIdleDetected then
    let r1 := setIdleness true s
    let r2 := if r1.1.countdownLive then finalizeCountdown r1.1 else (r1.1, [])
    ({ r2.1 with countdownLive := true }, r1.2 ++ r2.2)
  else (s, [])

/-- A `bufferTime` window with at least one event.  The activity
pipeline's `tap` refreshes `lastActivity`; the idle pipeline's
`filter(arr => !arr.length && ...)` drops it. -/
def activeWindowStep (nowMs : Nat) (s : ServiceState) :
    ServiceState × List Output :=
  if s.activitySubOpen then
    ({ s with lastActivity := nowInSeconds nowMs }, [])
  else (s, [])

/-- A raw activity event as seen by the live countdown's
`takeUntil(this.activityEvents$)`: the inner observable completes and
its `finalize` runs. -/
def rawActivityStep (s : ServiceState) : ServiceState × List Output :=
  if s.countdownLive then finalizeCountdown s else (s, [])

/-- One `interval(1000)` tick of the live countdown (`runTimer`'s
`tap`): when `lastActivity + timeout < nowInSeconds()` the service
pushes `timeout$.next(true)`; with an `onTimeout()` subscriber the
value passes that pipe's `filter`, its `tap` calls `stopWatching()`
(tearing the countdown down, hence the `finalize` emission), and `map`
delivers `true` to the subscriber. -/
def timerTickStep (onTimeoutSub : Bool) (nowMs : Nat) (s : ServiceState) :
    ServiceState × List Output :=
  if s.countdownLive then
    if s.lastActivity + s.config.timeout < nowInSeconds nowMs then
      if onTimeoutSub then
        let r := stopWatching s
        (r.1, Output.timeoutSignal :: (r.2 ++ [Output.timeoutEmission]))
      else (s, [Output.timeoutSignal])
    else (s, [])
  else (s, [])

/-- One reaction of the service to a serially delivered event.
`onTimeoutSub` records whether an `onTimeout()` subscriber is active. -/
def step (onTimeoutSub : Bool) (s : ServiceState) :
    RxEvent → ServiceState × List Output
  | RxEvent.emptyWindow => emptyWindowStep s
  | RxEvent.activeWindow nowMs => activeWindowStep nowMs s
  | RxEvent.rawActivity => rawActivityStep s
  | RxEvent.timerTick nowMs => timerTickStep onTimeoutSub nowMs s
  | RxEvent.startWatching => startWatching s
  | RxEvent.stopWatching => stopWatching s
  | RxEvent.setCustomActivityEvents src => setCustomActivityEvents src s

/-- Run the service over a list of events, concatenating emissions. -/
def run (onTimeoutSub : Bool) (s : ServiceState) :
    List RxEvent → ServiceState × List Output
  | [] => (s, [])
  | e :: es =>
    let r := step onTimeoutSub s e
    let r2 := run onTimeoutSub r.1 es
    (r2.1, r.2 ++ r2.2)

/-- The state of a freshly constructed `UserIdleService`: config merged
with the defaults, no activity source yet, `lastActivity` initialized to
the current time, nothing subscribed.  (`isIdleDetected` is `undefined`,
i.e. falsy.) -/
def initService (c : Option UserIdleConfigInput) (nowMs : Nat) :
    ServiceState :=
  { config := mergeConfig c,
    activityEvents := none,
    lastActivity := nowInSeconds nowMs,
    isIdleDetected := false,
    idleSubExists := false,
    idleSubOpen := false,
    activitySubOpen := false,
    countdownLive := false }

/-- `getConfig()`. -/
def getConfig (s : ServiceState) : UserIdleConfig := s.config

/-! ### Helper predicates on states and events -/

/-- Both pipelines torn down and no countdown: the state after watching
has been stopped. -/
def Stopped (s : ServiceState) : Prop :=
  s.idleSubOpen = false ∧ s.activitySubOpen = false ∧ s.countdownLive = false

/-- Events coming from the observable streams (windows, raw activity,
timer ticks) as opposed to public API calls. -/
def isStreamEvent : RxEvent → Bool
  | RxEvent.emptyWindow => true
  | RxEvent.activeWindow _ => true
  | RxEvent.rawActivity => true
  | RxEvent.timerTick _ => true
  | _ => false

/-- Events compatible with total user silence: empty windows and timer
ticks only. -/
def isSilence : RxEvent → Bool
  | RxEvent.emptyWindow => true
  | RxEvent.timerTick _ => true
  | _ => false

/-- Whether an event is a timer tick whose time satisfies the strict
timeout comparison against last activity `la` and threshold `T`. -/
def condFires (la T : Nat) : RxEvent → Bool
  | RxEvent.timerTick ms => decide (la + T < nowInSeconds ms)
  | _ => false

/-- Number of `true` values delivered to the `onTimeout()` subscriber in
an output trace. -/
def countTimeoutEmissions : List Output → Nat
  | [] => 0
  | o :: os =>
    (if o = Output.timeoutEmission then 1 else 0) + countTimeoutEmissions os

/-- Reachability invariant of the service: `isIdleDetected` mirrors the
liveness of the countdown, a live countdown lives under an open
idle-detection subscription, and an open subscription exists. -/
def ReachInv (s : ServiceState) : Prop :=
  s.isIdleDetected = s.countdownLive ∧
  (s.countdownLive = true → s.idleSubOpen = true) ∧
  (s.idleSubOpen = true → s.idleSubExists = true)

/-- A concrete reachable state in which the service is watching and not
idle: fresh construction followed by `startWatching()`. -/
def watchingState : ServiceState :=
  (run true (initService none 0) [RxEvent.startWatching]).1

/-- A concrete reachable state in which the service is watching, idle,
and the countdown is live: `startWatching()` followed by one empty
sampling window. -/
def idleState : ServiceState :=
  (run true (initService none 0)
    [RxEvent.startWatching, RxEvent.emptyWindow]).1

/-- The shape of a watching session whose countdown is in progress,
with last activity `la` (Unix seconds) and timeout threshold `T`. -/
def Waiting (la T : Nat) (s : ServiceState) : Prop :=
  s.idleSubExists = true ∧ s.idleSubOpen = true ∧
  s.countdownLive = true ∧ s.isIdleDetected = true ∧
  s.lastActivity = la ∧ s.config.timeout = T

/-! ### Basic sanity of the sample states -/

theorem watchingState_fields :
    watchingState.idleSubOpen = true ∧ watchingState.idleSubExists = true ∧
    watchingState.activitySubOpen = true ∧
    watchingState.isIdleDetected = false ∧
    watchingState.countdownLive = false := by decide

theorem idleState_fields :
    idleState.idleSubOpen = true ∧ idleState.idleSubExists = true ∧
    idleState.activitySubOpen = true ∧ idleState.isIdleDetected = true ∧
    idleState.countdownLive = true ∧ idleState.lastActivity = 0 ∧
    idleState.config.timeout = 300 := by decide

/-! ### Claim theorems -/

/-- C3: `setCustomActivityEvents(source)` logs an error and changes
nothing when the idle-detection subscription exists and is not closed;
otherwise it replaces the activity source used by both the sampler and
the countdown-cancellation mechanism (there is a single
`activityEvents$` field consumed by both). -/
theorem setCustomActivityEvents_guard (b : Bool) (s : ServiceState)
    (k : Nat) :
    step b s (RxEvent.setCustomActivityEvents k) =
      if s.idleSubExists && s.idleSubOpen then (s, [Output.errorLog])
      else ({ s with activityEvents := some (ActivitySource.custom k) },
            []) := rfl

/-- C4: while watching (idle subscription open) and with the countdown
in lock-step with the idle flag, an empty sampling window with
`isIdleDetected = false` sets the flag, emits `true` on the idle-status
stream and starts the countdown; an empty window with the flag already
`true` changes nothing and emits nothing. -/
theorem empty_window_transitions (b : Bool) (s : ServiceState)
    (hopen : s.idleSubOpen = true)
    (hlock : s.countdownLive = s.isIdleDetected) :
    step b s RxEvent.emptyWindow =
      if s.isIdleDetected then (s, [])
      else ({ s with isIdleDetected := true, countdownLive := true },
            [Output.idleDetected true]) := by
  cases hidle : s.isIdleDetected with
  | false =>
    have hcd : s.countdownLive = false := by rw [hlock, hidle]
    simp [step, emptyWindowStep, setIdleness, finalizeCountdown, hopen,
      hidle, hcd]
  | true =>
    simp [step, emptyWindowStep, hidle]

theorem empty_window_transitions_witness :
    step true watchingState RxEvent.emptyWindow =
      if watchingState.isIdleDetected then (watchingState, [])
      else ({ watchingState with isIdleDetected := true, countdownLive := true }, [Output.idleDetected true]) :=
  empty_window_transitions true watchingState (by decide) (by decide)

/-- C5: while the countdown is live, a single raw activity event (seen
by `takeUntil`, not windowed) tears the countdown down at once: its
`finalize` sets `isIdleDetected` to `false` and emits `false` on the
idle-status stream, and the step produces no timeout emission. -/
theorem raw_activity_cancels_countdown (b : Bool) (s : ServiceState)
    (hlive : s.countdownLive = true) :
    step b s RxEvent.rawActivity =
      ({ s with countdownLive := false, isIdleDetected := false },
       [Output.idleDetected false]) := by
  simp [step, rawActivityStep, finalizeCountdown, setIdleness, hlive]

theorem raw_activity_cancels_countdown_witness :
    step true idleState RxEvent.rawActivity =
      ({ idleState with countdownLive := false, isIdleDetected := false },
       [Output.idleDetected false]) :=
  raw_activity_cancels_countdown true idleState (by decide)

/-- C7: `startWatching()` from any state first stops the existing
session (its only emissions are those of that stop), installs the
default activity source when none is set, keeps a custom one, preserves
`lastActivity` and the configuration, and leaves both subscriptions
open with no countdown; a second `startWatching()` immediately after is
a no-op on the state and emits nothing, so repeated calls are
idempotent and never produce two concurrent sessions.  (The
hypothesis is the reachability fact that a live countdown lives under
an existing, open idle subscription.) -/
theorem startWatching_idempotent_structure (b : Bool) (s : ServiceState)
    (hcd : s.countdownLive = true →
      s.idleSubExists = true ∧ s.idleSubOpen = true) :
    (step b s RxEvent.startWatching).1.activitySubOpen = true ∧
    (step b s RxEvent.startWatching).1.idleSubOpen = true ∧
    (step b s RxEvent.startWatching).1.idleSubExists = true ∧
    (step b s RxEvent.startWatching).1.countdownLive = false ∧
    (step b s RxEvent.startWatching).1.activityEvents =
      (if s.activityEvents.isNone then some ActivitySource.defaultEvents
       else s.activityEvents) ∧
    (step b s RxEvent.startWatching).1.lastActivity = s.lastActivity ∧
    (step b s RxEvent.startWatching).1.config = s.config ∧
    (step b s RxEvent.startWatching).2 = (stopWatching s).2 ∧
    step b (step b s RxEvent.startWatching).1 RxEvent.startWatching =
      ((step b s RxEvent.startWatching).1, []) := by
  obtain ⟨cfg, ae, la, idl, ex, opn, act, cd⟩ := s
  cases cd with
  | false =>
    cases ex <;> cases opn <;> cases ae <;>
      simp [step, startWatching, stopWatching, unsubscribeIdle,
        finalizeCountdown, setIdleness]
  | true =>
    obtain ⟨hex, hopn⟩ := hcd rfl
    simp only at hex hopn
    subst hex
    subst hopn
    cases ae <;>
      simp [step, startWatching, stopWatching, unsubscribeIdle,
        finalizeCountdown, setIdleness]

theorem startWatching_idempotent_structure_witness :
    step true (step true idleState RxEvent.startWatching).1
        RxEvent.startWatching =
      ((step true idleState RxEvent.startWatching).1, []) :=
  (startWatching_idempotent_structure true idleState
    (fun _ => by decide)).2.2.2.2.2.2.2.2

/-- C8: the configuration returned by `getConfig()` is the construction
time merge of `DEFAULT_CONFIG` (timeout 300 seconds, sensitivity 1500
milliseconds) with the caller's overrides: absent caller or omitted
fields fall back to the defaults, supplied fields win. -/
theorem getConfig_merged_defaults (pc : UserIdleConfigInput) (t : Nat) :
    getConfig (initService none t) = DEFAULT_CONFIG ∧
    DEFAULT_CONFIG.timeout = 300 ∧
    DEFAULT_CONFIG.sensitivityMilliseconds = 1500 ∧
    (∀ a, pc.timeout = some a →
      (getConfig (initService (some pc) t)).timeout = a) ∧
    (pc.timeout = none →
      (getConfig (initService (some pc) t)).timeout = 300) ∧
    (∀ m, pc.sensitivityMilliseconds = some m →
      (getConfig (initService (some pc) t)).sensitivityMilliseconds = m) ∧
    (pc.sensitivityMilliseconds = none →
      (getConfig (initService (some pc) t)).sensitivityMilliseconds =
        1500) := by
  refine ⟨rfl, rfl, rfl, ?_, ?_, ?_, ?_⟩ <;> intro h
  · intro hh
    simp [getConfig, initService, mergeConfig, hh]
  · simp [getConfig, initService, mergeConfig, h, DEFAULT_CONFIG]
  · intro hh
    simp [getConfig, initService, mergeConfig, hh]
  · simp [getConfig, initService, mergeConfig, h, DEFAULT_CONFIG]

theorem getConfig_merged_defaults_witness :
    (getConfig (initService
        (some { timeout := some 2, sensitivityMilliseconds := none })
        0)).timeout = 2 ∧
    (getConfig (initService
        (some { timeout := some 2, sensitivityMilliseconds := none })
        0)).sensitivityMilliseconds = 1500 :=
  ⟨(getConfig_merged_defaults
      { timeout := some 2, sensitivityMilliseconds := none }
      0).2.2.2.1 2 rfl,
   (getConfig_merged_defaults
      { timeout := some 2, sensitivityMilliseconds := none }
      0).2.2.2.2.2.2 rfl⟩

/-- C9: on a live countdown tick, `timeout$` fires if and only if
`lastActivity + timeout < floor(nowMs / 1000)`, a strict comparison
over whole seconds; in particular a tick at which the current whole
second equals `lastActivity + timeout` exactly emits nothing. -/
theorem timeout_condition_strict (b : Bool) (s : ServiceState) (ms : Nat)
    (hlive : s.countdownLive = true) :
    (Output.timeoutSignal ∈ (step b s (RxEvent.timerTick ms)).2 ↔
      s.lastActivity + s.config.timeout < nowInSeconds ms) ∧
    (nowInSeconds ms = s.lastActivity + s.config.timeout →
      (step b s (RxEvent.timerTick ms)).2 = []) := by
  constructor
  · by_cases hlt : s.lastActivity + s.config.timeout < nowInSeconds ms
    · cases b <;>
        simp [step, timerTickStep, hlive, hlt, stopWatching,
          unsubscribeIdle, finalizeCountdown, setIdleness]
    · simp [step, timerTickStep, hlive, hlt]
  · intro heq
    have hnlt : ¬ (s.lastActivity + s.config.timeout < nowInSeconds ms) := by
      omega
    simp [step, timerTickStep, hlive, hnlt]

theorem timeout_condition_strict_witness :
    (Output.timeoutSignal ∈ (step true idleState
        (RxEvent.timerTick 301000)).2 ↔
      idleState.lastActivity + idleState.config.timeout <
        nowInSeconds 301000) ∧
    (nowInSeconds 301000 =
        idleState.lastActivity + idleState.config.timeout →
      (step true idleState (RxEvent.timerTick 301000)).2 = []) :=
  timeout_condition_strict true idleState 301000 (by decide)

/-- C10: with no `onTimeout()` subscriber, a qualifying countdown tick
only pushes the internal `timeout$` signal: the state (both
subscriptions, the countdown, the idle flag, `lastActivity`) is
untouched, so watching is never stopped, and every subsequent
qualifying tick pushes the signal again. -/
theorem unsubscribed_timeout_repeats (s : ServiceState) (ts : List Nat)
    (hlive : s.countdownLive = true)
    (hcond : ∀ t ∈ ts,
      s.lastActivity + s.config.timeout < nowInSeconds t) :
    run false s (ts.map RxEvent.timerTick) =
      (s, ts.map fun _ => Output.timeoutSignal) := by
  induction ts with
  | nil => simp [run]
  | cons t ts ih =>
    have hc := hcond t (List.mem_cons_self t ts)
    have hstep : step false s (RxEvent.timerTick t) =
        (s, [Output.timeoutSignal]) := by
      simp [step, timerTickStep, hlive, hc]
    have hih := ih (fun u hu => hcond u (List.mem_cons_of_mem t hu))
    simp [run, hstep, hih]

theorem unsubscribed_timeout_repeats_witness :
    run false idleState
        (List.map RxEvent.timerTick [400000, 500000]) =
      (idleState, [Output.timeoutSignal, Output.timeoutSignal]) :=
  unsubscribed_timeout_repeats idleState [400000, 500000] (by decide)
    (by
      intro t ht
      simp only [List.mem_cons, List.not_mem_nil, or_false] at ht
      rcases ht with h | h <;> subst h <;> decide)

/-! ### Characterizations of the step functions -/

lemma emptyWindowStep_pos (s : ServiceState) (hopn : s.idleSubOpen = true)
    (hidl : s.isIdleDetected = false) (hcd : s.countdownLive = false) :
    emptyWindowStep s =
      ({ s with isIdleDetected := true, countdownLive := true },
       [Output.idleDetected true]) := by
  simp [emptyWindowStep, setIdleness, finalizeCountdown, hopn, hidl, hcd]

lemma emptyWindowStep_neg (s : ServiceState)
    (h : s.idleSubOpen = false ∨ s.isIdleDetected = true) :
    emptyWindowStep s = (s, []) := by
  rcases h with h | h <;> simp [emptyWindowStep, h]

lemma activeWindowStep_bools (ms : Nat) (s : ServiceState) :
    (activeWindowStep ms s).1.isIdleDetected = s.isIdleDetected ∧
    (activeWindowStep ms s).1.countdownLive = s.countdownLive ∧
    (activeWindowStep ms s).1.idleSubOpen = s.idleSubOpen ∧
    (activeWindowStep ms s).1.idleSubExists = s.idleSubExists := by
  by_cases h : s.activitySubOpen = true <;> simp [activeWindowStep, h]

lemma stopWatching_eq_live (s : ServiceState) (hex : s.idleSubExists = true)
    (hopn : s.idleSubOpen = true) (hcd : s.countdownLive = true) :
    stopWatching s =
      ({ s with isIdleDetected := false, idleSubOpen := false, activitySubOpen := false, countdownLive := false },
       [Output.idleDetected false]) := by
  simp [stopWatching, unsubscribeIdle, finalizeCountdown, setIdleness,
    hex, hopn, hcd]

lemma stopWatching_eq_open_nocd (s : ServiceState)
    (hex : s.idleSubExists = true) (hopn : s.idleSubOpen = true)
    (hcd : s.countdownLive = false) :
    stopWatching s =
      ({ s with idleSubOpen := false, activitySubOpen := false }, []) := by
  simp [stopWatching, unsubscribeIdle, hex, hopn, hcd]

lemma stopWatching_eq_closed (s : ServiceState)
    (hopn : s.idleSubOpen = false) :
    stopWatching s = ({ s with activitySubOpen := false }, []) := by
  simp [stopWatching, unsubscribeIdle, hopn]

lemma stopWatching_eq_noex (s : ServiceState)
    (hex : s.idleSubExists = false) :
    stopWatching s = ({ s with activitySubOpen := false }, []) := by
  simp [stopWatching, hex]

/-! ### The reachability invariant (claim C6) -/

lemma reachInv_of_bools {s t : ServiceState} (h : ReachInv s)
    (e1 : t.isIdleDetected = s.isIdleDetected)
    (e2 : t.countdownLive = s.countdownLive)
    (e3 : t.idleSubOpen = s.idleSubOpen)
    (e4 : t.idleSubExists = s.idleSubExists) : ReachInv t := by
  have hinv := h
  simp only [ReachInv] at hinv ⊢
  obtain ⟨h1, h2, h3⟩ := hinv
  refine ⟨?_, ?_, ?_⟩
  · rw [e1, e2, h1]
  · intro hh
    rw [e3]
    exact h2 (by rw [← e2]; exact hh)
  · intro hh
    rw [e4]
    exact h3 (by rw [← e3]; exact hh)

lemma stopWatching_clears (s : ServiceState) (h : ReachInv s) :
    (stopWatching s).1.countdownLive = false ∧
    (stopWatching s).1.isIdleDetected = false := by
  have hinv := h
  simp only [ReachInv] at hinv
  obtain ⟨h1, h2, h3⟩ := hinv
  cases hcd : s.countdownLive with
  | true =>
    have hopn := h2 hcd
    have hex := h3 hopn
    rw [stopWatching_eq_live s hex hopn hcd]
    exact ⟨rfl, rfl⟩
  | false =>
    have hidl : s.isIdleDetected = false := by rw [h1, hcd]
    cases hex : s.idleSubExists with
    | false =>
      rw [stopWatching_eq_noex s hex]
      exact ⟨hcd, hidl⟩
    | true =>
      cases hopn : s.idleSubOpen with
      | false =>
        rw [stopWatching_eq_closed s hopn]
        exact ⟨hcd, hidl⟩
      | true =>
        rw [stopWatching_eq_open_nocd s hex hopn hcd]
        exact ⟨hcd, hidl⟩

lemma stopWatching_sub_bools (s : ServiceState) :
    (stopWatching s).1.idleSubExists = s.idleSubExists ∧
    ((stopWatching s).1.idleSubOpen = true → s.idleSubOpen = true) := by
  cases hcd : s.countdownLive <;> cases hex : s.idleSubExists <;>
    cases hopn : s.idleSubOpen <;>
    simp [stopWatching, unsubscribeIdle, finalizeCountdown, setIdleness,
      hcd, hex, hopn]

lemma reachInv_step (b : Bool) (e : RxEvent) (s : ServiceState)
    (h : ReachInv s) : ReachInv (step b s e).1 := by
  have hinv := h
  simp only [ReachInv] at hinv
  obtain ⟨h1, h2, h3⟩ := hinv
  cases e with
  | emptyWindow =>
    show ReachInv (emptyWindowStep s).1
    cases hidl : s.isIdleDetected with
    | true =>
      rw [emptyWindowStep_neg s (Or.inr hidl)]
      exact h
    | false =>
      cases hopn : s.idleSubOpen with
      | false =>
        rw [emptyWindowStep_neg s (Or.inl hopn)]
        exact h
      | true =>
        have hcd : s.countdownLive = false := by rw [← h1]; exact hidl
        rw [emptyWindowStep_pos s hopn hidl hcd]
        exact ⟨rfl, fun _ => hopn, fun _ => h3 hopn⟩
  | activeWindow ms =>
    show ReachInv (activeWindowStep ms s).1
    obtain ⟨e1, e2, e3, e4⟩ := activeWindowStep_bools ms s
    exact reachInv_of_bools h e1 e2 e3 e4
  | rawActivity =>
    show ReachInv (rawActivityStep s).1
    cases hcd : s.countdownLive with
    | false =>
      have heq : rawActivityStep s = (s, []) := by
        simp [rawActivityStep, hcd]
      rw [heq]
      exact h
    | true =>
      have heq : rawActivityStep s =
          ({ s with isIdleDetected := false, countdownLive := false }, [Output.idleDetected false]) := by
        simp [rawActivityStep, finalizeCountdown, setIdleness, hcd]
      rw [heq]
      exact ⟨rfl, fun hh => Bool.noConfusion hh, fun hh => h3 hh⟩
  | timerTick ms =>
    show ReachInv (timerTickStep b ms s).1
    cases hcd : s.countdownLive with
    | false =>
      have heq : timerTickStep b ms s = (s, []) := by
        simp [timerTickStep, hcd]
      rw [heq]
      exact h
    | true =>
      by_cases hlt : s.lastActivity + s.config.timeout < nowInSeconds ms
      · cases b with
        | false =>
          have heq : timerTickStep false ms s =
              (s, [Output.timeoutSignal]) := by
            simp [timerTickStep, hcd, hlt]
          rw [heq]
          exact h
        | true =>
          have hopn := h2 hcd
          have hex := h3 hopn
          have hst : (timerTickStep true ms s).1 = (stopWatching s).1 := by
            simp [timerTickStep, hcd, hlt]
          rw [hst, stopWatching_eq_live s hex hopn hcd]
          exact ⟨rfl, fun hh => Bool.noConfusion hh, fun hh => Bool.noConfusion hh⟩
      · have heq : timerTickStep b ms s = (s, []) := by
          simp [timerTickStep, hcd, hlt]
        rw [heq]
        exact h
  | startWatching =>
    show ReachInv (startWatching s).1
    obtain ⟨hc1, hc2⟩ := stopWatching_clears s h
    by_cases hae : (stopWatching s).1.activityEvents.isNone = true
    · have heq : (startWatching s).1 =
          { (stopWatching s).1 with
            activityEvents := some ActivitySource.defaultEvents,
            activitySubOpen := true, idleSubExists := true,
            idleSubOpen := true } := by
        simp [startWatching, hae]
      rw [heq]
      exact ⟨hc2.trans hc1.symm, fun _ => rfl, fun _ => rfl⟩
    · have heq : (startWatching s).1 =
          { (stopWatching s).1 with
            activitySubOpen := true, idleSubExists := true,
            idleSubOpen := true } := by
        simp [startWatching, hae]
      rw [heq]
      exact ⟨hc2.trans hc1.symm, fun _ => rfl, fun _ => rfl⟩
  | stopWatching =>
    show ReachInv (stopWatching s).1
    obtain ⟨hc1, hc2⟩ := stopWatching_clears s h
    obtain ⟨p1, p2⟩ := stopWatching_sub_bools s
    refine ⟨?_, ?_, ?_⟩
    · rw [hc1, hc2]
    · intro hh
      rw [hc1] at hh
      exact absurd hh (by decide)
    · intro hh
      rw [p1]
      exact h3 (p2 hh)
  | setCustomActivityEvents k =>
    show ReachInv (setCustomActivityEvents k s).1
    by_cases hc : (s.idleSubExists && s.idleSubOpen) = true
    · have heq : setCustomActivityEvents k s = (s, [Output.errorLog]) := by
        simp [setCustomActivityEvents, hc]
      rw [heq]
      exact h
    · have heq : (setCustomActivityEvents k s).1 =
          { s with activityEvents := some (ActivitySource.custom k) } := by
        simp [setCustomActivityEvents, hc]
      rw [heq]
      exact reachInv_of_bools h rfl rfl rfl rfl

lemma reachInv_run (b : Bool) (es : List RxEvent) :
    ∀ s, ReachInv s → ReachInv (run b s es).1 := by
  induction es with
  | nil => intro s h; simpa [run] using h
  | cons e es ih =>
    intro s h
    simp only [run]
    exact ih _ (reachInv_step b e s h)

lemma reachInv_init (c : Option UserIdleConfigInput) (t : Nat) :
    ReachInv (initService c t) := by
  refine ⟨rfl, ?_, ?_⟩ <;> intro h <;> simp [initService] at h

/-- C6: in every state reachable from construction by any sequence of
events, `isIdleDetected` is `true` exactly when the countdown is live:
the idle flag and the countdown are in lock-step.  (In the embedding
`countdownLive` is a single boolean because `switchMap` keeps at most
one inner `runTimer` subscribed, cancelling the previous inner
observable when a new countdown starts — see `emptyWindowStep`.) -/
theorem idle_flag_matches_countdown (b : Bool)
    (c : Option UserIdleConfigInput) (t : Nat) (es : List RxEvent) :
    ((run b (initService c t) es).1).isIdleDetected =
      ((run b (initService c t) es).1).countdownLive :=
  (reachInv_run b es _ (reachInv_init c t)).1

/-! ### Claim C2: stopWatching -/

/-- C2 counterexample: in the reachable state produced by
`startWatching()` followed by one empty sampling window the idle flag is
set and the countdown is live; calling `stopWatching()` there resets
`isIdleDetected` to `false` (the countdown's `finalize` cleanup runs on
unsubscription) and emits `false` on the idle-status stream — contrary
to the claim that `stopWatching()` never resets the idle flag. -/
theorem stopWatching_resets_idle_flag_cex :
    idleState.isIdleDetected = true ∧
    (step true idleState RxEvent.stopWatching).1.isIdleDetected = false ∧
    (step true idleState RxEvent.stopWatching).2 =
      [Output.idleDetected false] := by decide

/-- C2 (amended): `stopWatching()` cancels both subscriptions when
live and is a no-op when not watching; it always leaves `lastActivity`,
the configuration and the activity source unchanged, and it leaves
`isIdleDetected` unchanged (emitting nothing) except when a countdown
is live under the open idle subscription, in which case the countdown's
`finalize` cleanup sets `isIdleDetected` to `false` and emits `false`
on the idle-status stream. -/
theorem stopWatching_effects (b : Bool) (s : ServiceState) :
    (step b s RxEvent.stopWatching).1.lastActivity = s.lastActivity ∧
    (step b s RxEvent.stopWatching).1.config = s.config ∧
    (step b s RxEvent.stopWatching).1.activityEvents = s.activityEvents ∧
    (step b s RxEvent.stopWatching).1.activitySubOpen = false ∧
    (s.idleSubExists = true →
      (step b s RxEvent.stopWatching).1.idleSubOpen = false) ∧
    (s.idleSubOpen = false ∧ s.activitySubOpen = false →
      step b s RxEvent.stopWatching = (s, [])) ∧
    (¬(s.idleSubExists = true ∧ s.idleSubOpen = true ∧
        s.countdownLive = true) →
      (step b s RxEvent.stopWatching).1.isIdleDetected =
          s.isIdleDetected ∧
        (step b s RxEvent.stopWatching).2 = []) ∧
    (s.idleSubExists = true ∧ s.idleSubOpen = true ∧
        s.countdownLive = true →
      (step b s RxEvent.stopWatching).1.isIdleDetected = false ∧
        (step b s RxEvent.stopWatching).2 =
          [Output.idleDetected false]) := by
  obtain ⟨cfg, ae, la, idl, ex, opn, act, cd⟩ := s
  cases ex <;> cases opn <;> cases cd <;> cases act <;>
    simp [step, stopWatching, unsubscribeIdle, finalizeCountdown,
      setIdleness]

theorem stopWatching_effects_witness :
    step true (initService none 0) RxEvent.stopWatching =
      (initService none 0, []) :=
  (stopWatching_effects true (initService none 0)).2.2.2.2.2.1
    (by decide)

/-! ### Claim C1: a full-silence session times out exactly once -/

lemma countTimeoutEmissions_append (xs ys : List Output) :
    countTimeoutEmissions (xs ++ ys) =
      countTimeoutEmissions xs + countTimeoutEmissions ys := by
  induction xs with
  | nil => simp [countTimeoutEmissions]
  | cons x xs ih => simp [countTimeoutEmissions, ih, Nat.add_assoc]

lemma silence_isStream (e : RxEvent) (h : isSilence e = true) :
    isStreamEvent e = true := by
  cases e <;> simp_all [isSilence, isStreamEvent]

lemma stopped_inert (b : Bool) (s : ServiceState) (e : RxEvent)
    (hs : Stopped s) (he : isStreamEvent e = true) :
    step b s e = (s, []) := by
  have hs' := hs
  simp only [Stopped] at hs'
  obtain ⟨ho, ha, hc⟩ := hs'
  cases e with
  | emptyWindow => exact emptyWindowStep_neg s (Or.inl ho)
  | activeWindow ms =>
    show activeWindowStep ms s = (s, [])
    simp [activeWindowStep, ha]
  | rawActivity =>
    show rawActivityStep s = (s, [])
    simp [rawActivityStep, hc]
  | timerTick ms =>
    show timerTickStep b ms s = (s, [])
    simp [timerTickStep, hc]
  | startWatching => simp [isStreamEvent] at he
  | stopWatching => simp [isStreamEvent] at he
  | setCustomActivityEvents k => simp [isStreamEvent] at he

lemma stopped_run (b : Bool) (es : List RxEvent) :
    ∀ s, Stopped s → (∀ e ∈ es, isStreamEvent e = true) →
      run b s es = (s, []) := by
  induction es with
  | nil => intro s _ _; simp [run]
  | cons e es ih =>
    intro s hs he
    have h1 := stopped_inert b s e hs (he e (List.mem_cons_self e es))
    have h2 := ih s hs (fun u hu => he u (List.mem_cons_of_mem e hu))
    simp [run, h1, h2]

lemma run_append (b : Bool) (xs ys : List RxEvent) :
    ∀ s, run b s (xs ++ ys) =
      ((run b (run b s xs).1 ys).1,
       (run b s xs).2 ++ (run b (run b s xs).1 ys).2) := by
  induction xs with
  | nil => intro s; simp [run]
  | cons x xs ih =>
    intro s
    simp [run, ih, List.append_assoc]

lemma waiting_emptyWindow (la T : Nat) (s : ServiceState)
    (hw : Waiting la T s) :
    step true s RxEvent.emptyWindow = (s, []) := by
  have hw' := hw
  simp only [Waiting] at hw'
  exact emptyWindowStep_neg s (Or.inr hw'.2.2.2.1)

lemma waiting_tick_nofire (la T t : Nat) (s : ServiceState)
    (hw : Waiting la T s) (hc : ¬ (la + T < nowInSeconds t)) :
    step true s (RxEvent.timerTick t) = (s, []) := by
  have hw' := hw
  simp only [Waiting] at hw'
  obtain ⟨hex, hopn, hcd, hidl, hla, hT⟩ := hw'
  have hnlt : ¬ (s.lastActivity + s.config.timeout < nowInSeconds t) := by
    rw [hla, hT]; exact hc
  show timerTickStep true t s = (s, [])
  simp [timerTickStep, hcd, hnlt]

lemma waiting_tick_fires (la T t : Nat) (s : ServiceState)
    (hw : Waiting la T s) (hc : la + T < nowInSeconds t) :
    step true s (RxEvent.timerTick t) =
      ({ s with isIdleDetected := false, idleSubOpen := false, activitySubOpen := false, countdownLive := false },
       [Output.timeoutSignal, Output.idleDetected false,
        Output.timeoutEmission]) := by
  have hw' := hw
  simp only [Waiting] at hw'
  obtain ⟨hex, hopn, hcd, hidl, hla, hT⟩ := hw'
  have hlt : s.lastActivity + s.config.timeout < nowInSeconds t := by
    rw [hla, hT]; exact hc
  show timerTickStep true t s = _
  simp [timerTickStep, hcd, hlt, stopWatching_eq_live s hex hopn hcd]

lemma waiting_silence_run (la T : Nat) (es : List RxEvent) :
    ∀ s, Waiting la T s → (∀ e ∈ es, isSilence e = true) →
      (es.any (condFires la T) = true →
        countTimeoutEmissions (run true s es).2 = 1 ∧
          Stopped (run true s es).1) ∧
      (es.any (condFires la T) = false →
        run true s es = (s, [])) := by
  induction es with
  | nil =>
    intro s hw hsil
    constructor
    · intro h
      simp at h
    · intro _
      simp [run]
  | cons e es ih =>
    intro s hw hsil
    have hse := hsil e (List.mem_cons_self e es)
    have hsil' : ∀ u ∈ es, isSilence u = true :=
      fun u hu => hsil u (List.mem_cons_of_mem e hu)
    cases e with
    | emptyWindow =>
      have hstep := waiting_emptyWindow la T s hw
      have hih := ih s hw hsil'
      constructor
      · intro h
        rw [List.any_cons] at h
        have hcf : condFires la T RxEvent.emptyWindow = false := rfl
        rw [hcf, Bool.false_or] at h
        obtain ⟨hcount, hstop⟩ := hih.1 h
        constructor
        · simp [run, hstep]
          exact hcount
        · simp [run, hstep]
          exact hstop
      · intro h
        rw [List.any_cons] at h
        have hcf : condFires la T RxEvent.emptyWindow = false := rfl
        rw [hcf, Bool.false_or] at h
        simp [run, hstep, hih.2 h]
    | timerTick t =>
      by_cases hc : la + T < nowInSeconds t
      · have hstep := waiting_tick_fires la T t s hw hc
        have hstop : Stopped ({ s with isIdleDetected := false, idleSubOpen := false, activitySubOpen := false, countdownLive := false } : ServiceState) :=
          ⟨rfl, rfl, rfl⟩
        have hrun := stopped_run true es _ hstop
          (fun u hu => silence_isStream u (hsil' u hu))
        constructor
        · intro _
          constructor
          · simp [run, hstep, hrun, countTimeoutEmissions]
          · simp [run, hstep, hrun]
            exact hstop
        · intro h
          rw [List.any_cons] at h
          have hcf : condFires la T (RxEvent.timerTick t) = true := by
            simp [condFires, hc]
          rw [hcf, Bool.true_or] at h
          exact absurd h (by decide)
      · have hstep := waiting_tick_nofire la T t s hw hc
        have hih := ih s hw hsil'
        have hcf : condFires la T (RxEvent.timerTick t) = false := by
          simp [condFires, hc]
        constructor
        · intro h
          rw [List.any_cons, hcf, Bool.false_or] at h
          obtain ⟨hcount, hstop⟩ := hih.1 h
          constructor
          · simp [run, hstep]
            exact hcount
          · simp [run, hstep]
            exact hstop
        · intro h
          rw [List.any_cons, hcf, Bool.false_or] at h
          simp [run, hstep, hih.2 h]
    | activeWindow ms => simp [isSilence] at hse
    | rawActivity => simp [isSilence] at hse
    | startWatching => simp [isSilence] at hse
    | stopWatching => simp [isSilence] at hse
    | setCustomActivityEvents k => simp [isSilence] at hse

lemma stopWatching_keeps (s : ServiceState) :
    (stopWatching s).1.lastActivity = s.lastActivity ∧
    (stopWatching s).1.config = s.config ∧
    (stopWatching s).1.activityEvents = s.activityEvents := by
  cases hcd : s.countdownLive <;> cases hex : s.idleSubExists <;>
    cases hopn : s.idleSubOpen <;>
    simp [stopWatching, unsubscribeIdle, finalizeCountdown, setIdleness,
      hcd, hex, hopn]

lemma startWatching_fresh (s : ServiceState) (h : ReachInv s) :
    (step true s RxEvent.startWatching).1.idleSubExists = true ∧
    (step true s RxEvent.startWatching).1.idleSubOpen = true ∧
    (step true s RxEvent.startWatching).1.activitySubOpen = true ∧
    (step true s RxEvent.startWatching).1.isIdleDetected = false ∧
    (step true s RxEvent.startWatching).1.countdownLive = false ∧
    (step true s RxEvent.startWatching).1.lastActivity = s.lastActivity ∧
    (step true s RxEvent.startWatching).1.config = s.config := by
  obtain ⟨hc1, hc2⟩ := stopWatching_clears s h
  obtain ⟨hk1, hk2, hk3⟩ := stopWatching_keeps s
  by_cases hae : (stopWatching s).1.activityEvents.isNone = true
  · have heq : (step true s RxEvent.startWatching).1 =
        { (stopWatching s).1 with activityEvents := some ActivitySource.defaultEvents, activitySubOpen := true, idleSubExists := true, idleSubOpen := true } := by
      show (startWatching s).1 = _
      simp [startWatching, hae]
    rw [heq]
    exact ⟨rfl, rfl, rfl, hc2, hc1, hk1, hk2⟩
  · have heq : (step true s RxEvent.startWatching).1 =
        { (stopWatching s).1 with activitySubOpen := true, idleSubExists := true, idleSubOpen := true } := by
      show (startWatching s).1 = _
      simp [startWatching, hae]
    rw [heq]
    exact ⟨rfl, rfl, rfl, hc2, hc1, hk1, hk2⟩

/-- C1: from any reachable state, after `startWatching()` a session
that sees only silence (empty sampling windows and countdown ticks,
one of which lies strictly beyond `lastActivity + timeout` in whole
seconds) delivers exactly one `true` to the `onTimeout()` subscriber,
watching is automatically stopped (both subscriptions cancelled, no
countdown), and any further stream events — activity or silence —
leave the stopped state unchanged and emit nothing until
`startWatching()` is called again. -/
theorem timeout_emits_once_and_stops_watching (s0 : ServiceState)
    (es post : List RxEvent)
    (hinv : ReachInv s0)
    (hsil : ∀ e ∈ es, isSilence e = true)
    (hpost : ∀ e ∈ post, isStreamEvent e = true)
    (hfire : es.any
      (condFires s0.lastActivity s0.config.timeout) = true) :
    countTimeoutEmissions
        (run true (step true s0 RxEvent.startWatching).1
          (RxEvent.emptyWindow :: (es ++ post))).2 = 1 ∧
    Stopped
      (run true (step true s0 RxEvent.startWatching).1
        (RxEvent.emptyWindow :: (es ++ post))).1 ∧
    run true
        (run true (step true s0 RxEvent.startWatching).1
          (RxEvent.emptyWindow :: es)).1 post =
      ((run true (step true s0 RxEvent.startWatching).1
          (RxEvent.emptyWindow :: es)).1, []) := by
  obtain ⟨f1, f2, f3, f4, f5, f6, f7⟩ := startWatching_fresh s0 hinv
  have hw0 : step true (step true s0 RxEvent.startWatching).1
      RxEvent.emptyWindow =
      ({ (step true s0 RxEvent.startWatching).1 with isIdleDetected := true, countdownLive := true },
       [Output.idleDetected true]) :=
    emptyWindowStep_pos _ f2 f4 f5
  have hw : Waiting s0.lastActivity s0.config.timeout
      ({ (step true s0 RxEvent.startWatching).1 with isIdleDetected := true, countdownLive := true }) :=
    ⟨f1, f2, rfl, rfl, f6, congrArg UserIdleConfig.timeout f7⟩
  have hmain := waiting_silence_run s0.lastActivity s0.config.timeout
    es _ hw hsil
  obtain ⟨hcount2, hstop2⟩ := hmain.1 hfire
  have hrunpost := stopped_run true post _ hstop2 hpost
  refine ⟨?_, ?_, ?_⟩
  · rw [show (RxEvent.emptyWindow :: (es ++ post)) =
        ((RxEvent.emptyWindow :: es) ++ post) from rfl,
      run_append]
    rw [show run true (step true s0 RxEvent.startWatching).1
        (RxEvent.emptyWindow :: es) =
        ((run true ({ (step true s0 RxEvent.startWatching).1 with isIdleDetected := true, countdownLive := true }) es).1,
         Output.idleDetected true ::
           (run true ({ (step true s0 RxEvent.startWatching).1 with isIdleDetected := true, countdownLive := true }) es).2)
      from by simp [run, hw0]]
    rw [hrunpost]
    simp [countTimeoutEmissions_append, countTimeoutEmissions, hcount2]
  · rw [show (RxEvent.emptyWindow :: (es ++ post)) =
        ((RxEvent.emptyWindow :: es) ++ post) from rfl,
      run_append]
    rw [show run true (step true s0 RxEvent.startWatching).1
        (RxEvent.emptyWindow :: es) =
        ((run true ({ (step true s0 RxEvent.startWatching).1 with isIdleDetected := true, countdownLive := true }) es).1,
         Output.idleDetected true ::
           (run true ({ (step true s0 RxEvent.startWatching).1 with isIdleDetected := true, countdownLive := true }) es).2)
      from by simp [run, hw0]]
    rw [hrunpost]
    exact hstop2
  · rw [show run true (step true s0 RxEvent.startWatching).1
        (RxEvent.emptyWindow :: es) =
        ((run true ({ (step true s0 RxEvent.startWatching).1 with isIdleDetected := true, countdownLive := true }) es).1,
         Output.idleDetected true ::
           (run true ({ (step true s0 RxEvent.startWatching).1 with isIdleDetected := true, countdownLive := true }) es).2)
      from by simp [run, hw0]]
    exact hrunpost

theorem timeout_emits_once_and_stops_watching_witness :
    countTimeoutEmissions
        (run true (step true (initService none 0) RxEvent.startWatching).1
          (RxEvent.emptyWindow ::
            ([RxEvent.timerTick 301001] ++ [RxEvent.rawActivity]))).2
      = 1 :=
  (timeout_emits_once_and_stops_watching (initService none 0)
    [RxEvent.timerTick 301001] [RxEvent.rawActivity]
    (reachInv_init none 0)
    (by
      intro e he
      simp only [List.mem_singleton] at he
      subst he
      decide)
    (by
      intro e he
      simp only [List.mem_singleton] at he
      subst he
      decide)
    (by decide)).1
